import Mathlib

/-!
Shallow embedding of the EDDM planner's core logic: the tiered pricing
engine (`calculateTotal` in EDDMMapper.js), the turnkey pricing utility
(roiCalculator.js), the ROI projector (`calculateROI`), the route-catalog
merge performed inside `fetchEDDMRoutes`, the delivery/region filters
(`filteredRoutes`), the polygon predicates (`isPointInPolygonSimple`,
`routeIntersectsPolygon`) and the greedy budget optimizer
(`optimizeForBudget`).  Money and coordinates are modelled as exact
rationals; address counts as naturals.
-/

namespace EDDM

/-- A pricing tier `{min, max, rate}`.  `max = none` models the JS literal
`Infinity` on the top tier. -/
structure Tier where
  tmin : ℚ
  tmax : Option ℚ
  rate : ℚ
deriving DecidableEq, Repr, Inhabited

/-- The JS predicate `quantity >= tier.min && quantity <= tier.max`
(`q <= Infinity` is always true). -/
def tierMatches (q : ℚ) (t : Tier) : Bool :=
  decide (t.tmin ≤ q) && (match t.tmax with
    | none => true
    | some m => decide (q ≤ m))

/-- `POSTAGE_RATE` from `calculateTotal` / `optimizeForBudget`. -/
def POSTAGE_RATE : ℚ := 0.25

/-- `BUNDLING_RATE` from `calculateTotal` / `optimizeForBudget`. -/
def BUNDLING_RATE : ℚ := 0.035

/-- `printPricingTiers` from `calculateTotal` (identical copy in
`optimizeForBudget`). -/
def printPricingTiers : List Tier :=
  [⟨500, some 999, 0.23⟩,
   ⟨1000, some 2499, 0.17⟩,
   ⟨2500, some 4999, 0.12⟩,
   ⟨5000, some 9999, 0.10⟩,
   ⟨10000, none, 0.089⟩]

/-- `printPricingTiers.find(tier => totalAddresses >= tier.min && totalAddresses <= tier.max)`. -/
def currentPrintTier (q : ℕ) : Option Tier :=
  printPricingTiers.find? (tierMatches (q : ℚ))

/-- The next tier: JS takes `findIndex(tier => tier === currentTierObj)`
(equal to the index `find` stopped at) and returns
`printPricingTiers[i+1]` when `i < length - 1`, else `null`.  The branch
is only reached when a current tier exists. -/
def nextPrintTier (q : ℕ) : Option Tier :=
  match printPricingTiers.findIdx? (tierMatches (q : ℚ)) with
  | some i =>
      if i < printPricingTiers.length - 1 then
        some (printPricingTiers.getD (i + 1) default)
      else none
  | none => none

/-- The two result shapes of `calculateTotal`: the below-minimum object
`{addresses, belowMinimum: true, minimumQuantity: 500}` carries no cost
fields; the priced object carries them all (`currentTier`/`nextTier`
display strings are modelled by the numeric rates they render). -/
inductive PricingResult where
  | belowMin (addresses minimumQuantity : ℕ)
  | priced (addresses : ℕ) (printRate printCost postageCost bundlingCost total : ℚ)
      (nextTierRate : Option ℚ) (addressesUntilNextDiscount potentialSavings : ℚ)
deriving DecidableEq, Repr

/-- The pricing part of `calculateTotal` (EDDMMapper.js), as a function of
the already-summed address total.  `if (!printRate)` is modelled as the
no-matching-tier case (no tier has rate 0, so the falsy test coincides
with the null test). -/
def calculateTotalFromAddresses (totalAddresses : ℕ) : PricingResult :=
  match currentPrintTier totalAddresses with
  | none => .belowMin totalAddresses 500
  | some tier =>
    let printCost : ℚ := (totalAddresses : ℚ) * tier.rate
    let postageCost : ℚ := (totalAddresses : ℚ) * POSTAGE_RATE
    let bundlingCost : ℚ := (totalAddresses : ℚ) * BUNDLING_RATE
    let totalCost : ℚ := printCost + postageCost + bundlingCost
    let nextTierObj := nextPrintTier totalAddresses
    let addressesUntilNextDiscount : ℚ :=
      match nextTierObj with
      | some nt => nt.tmin - (totalAddresses : ℚ)
      | none => 0
    let potentialSavings : ℚ :=
      match nextTierObj with
      | some nt => totalCost - (nt.tmin * nt.rate + nt.tmin * POSTAGE_RATE + nt.tmin * BUNDLING_RATE)
      | none => 0
    .priced totalAddresses tier.rate printCost postageCost bundlingCost totalCost
      (nextTierObj.map Tier.rate) addressesUntilNextDiscount potentialSavings

/-- `belowMinimum` field of the result object. -/
def PricingResult.belowMinimum : PricingResult → Bool
  | .belowMin _ _ => true
  | .priced _ _ _ _ _ _ _ _ _ => false

/-- `printRate` field (absent on the below-minimum shape). -/
def PricingResult.printRateField : PricingResult → Option ℚ
  | .belowMin _ _ => none
  | .priced _ r _ _ _ _ _ _ _ => some r

/-- `total` field (absent on the below-minimum shape). -/
def PricingResult.totalField : PricingResult → Option ℚ
  | .belowMin _ _ => none
  | .priced _ _ _ _ _ t _ _ _ => some t

/-- `potentialSavings` field (absent on the below-minimum shape). -/
def PricingResult.potentialSavingsField : PricingResult → Option ℚ
  | .belowMin _ _ => none
  | .priced _ _ _ _ _ _ _ _ s => some s

/-- A geographic point `{lat, lng}`. -/
structure Point where
  lat : ℚ
  lng : ℚ
deriving DecidableEq, Repr

/-- A route object as built by `fetchEDDMRoutes` (demographic fields and
the display name are irrelevant to the claims and omitted). -/
structure Route where
  id : String
  zipCode : String
  coordinates : List (List Point)
  households : ℕ
  residential : ℕ
  business : ℕ
  centerLat : ℚ
  centerLng : ℚ
deriving DecidableEq, Repr

/-- `deliveryType` state values. -/
inductive DeliveryType where
  | all
  | residential
  | business
deriving DecidableEq, Repr

/-- Per-route address count by delivery type (the `reduce` body of
`calculateTotal` and `getRouteAddresses` in `optimizeForBudget`). -/
def getRouteAddresses (dt : DeliveryType) (r : Route) : ℕ :=
  match dt with
  | .residential => r.residential
  | .business => r.business
  | .all => r.households

/-- `routes.filter(r => selectedRoutes.includes(r.id)).reduce(...)` from
`calculateTotal`. -/
def totalAddressesOf (routes : List Route) (selectedRoutes : List String)
    (dt : DeliveryType) : ℕ :=
  ((routes.filter (fun r => selectedRoutes.contains r.id)).map (getRouteAddresses dt)).sum

/-- `calculateTotal` (EDDMMapper.js, lines 708-788). -/
def calculateTotal (routes : List Route) (selectedRoutes : List String)
    (dt : DeliveryType) : PricingResult :=
  calculateTotalFromAddresses (totalAddressesOf routes selectedRoutes dt)

/-- Below the lowest print tier's `min` (500), the linear scan finds no
tier. -/
theorem currentPrintTier_eq_none_of_lt {q : ℕ} (h : q < 500) :
    currentPrintTier q = none := by
  have hq : (q : ℚ) < 500 := by exact_mod_cast h
  have h1 : ¬ ((500 : ℚ) ≤ (q : ℚ)) := by linarith
  have h2 : ¬ ((1000 : ℚ) ≤ (q : ℚ)) := by linarith
  have h3 : ¬ ((2500 : ℚ) ≤ (q : ℚ)) := by linarith
  have h4 : ¬ ((5000 : ℚ) ≤ (q : ℚ)) := by linarith
  have h5 : ¬ ((10000 : ℚ) ≤ (q : ℚ)) := by linarith
  simp [currentPrintTier, printPricingTiers, List.find?, tierMatches, h1, h2, h3, h4, h5]

/-- A minimal concrete route for instantiating the theorems. -/
def sampleRoute (rid zip : String) (res bus : ℕ) : Route :=
  ⟨rid, zip, [[⟨28, -81⟩, ⟨28, -82⟩, ⟨29, -81⟩]], res + bus, res, bus, 28, -81⟩

/-- C1 (counterexample): at a selection totalling 2450 addresses the tier
scan of `calculateTotal` does not select the 0.12 rate and does not yield
total 992.25 — 2450 falls in the 1000–2499 tier. -/
theorem print_pricing_2450_claim_false :
    (calculateTotalFromAddresses 2450).printRateField ≠ some 0.12 ∧
    (calculateTotalFromAddresses 2450).totalField ≠ some 992.25 := by
  norm_num [calculateTotalFromAddresses, currentPrintTier, nextPrintTier,
    printPricingTiers, tierMatches, List.find?, List.findIdx?, List.findIdx?_cons,
    POSTAGE_RATE, BUNDLING_RATE, PricingResult.printRateField, PricingResult.totalField]

/-- C1 (amended): pricing a selection totalling 2450 addresses selects the
1000–2499 tier's rate 0.17, yields total `2450 * (0.17+0.25+0.035) =
1114.75`, and reports `2500 - 2450 = 50` addresses until the next tier
(rate 0.12), with potential savings `1114.75 - 2500*0.405 = 102.25`. -/
theorem print_pricing_2450_amended :
    calculateTotalFromAddresses 2450 =
      .priced 2450 0.17 416.5 612.5 85.75 1114.75 (some 0.12) 50 102.25 := by
  norm_num [calculateTotalFromAddresses, currentPrintTier, nextPrintTier,
    printPricingTiers, tierMatches, List.find?, List.findIdx?, List.findIdx?_cons,
    POSTAGE_RATE, BUNDLING_RATE]

/-- C2: every selection whose address total is strictly below 500 prices to
the below-minimum object (`belowMinimum = true`, `minimumQuantity = 500`,
no cost fields, no tier rate consulted), and a selection totalling exactly
500 gets the lowest tier's rate 0.23 with `belowMinimum = false`. -/
theorem below_minimum_pricing (routes : List Route) (sel : List String)
    (dt : DeliveryType) :
    (totalAddressesOf routes sel dt < 500 →
      calculateTotal routes sel dt =
        .belowMin (totalAddressesOf routes sel dt) 500) ∧
    (totalAddressesOf routes sel dt = 500 →
      (calculateTotal routes sel dt).printRateField = some 0.23 ∧
      (calculateTotal routes sel dt).belowMinimum = false) := by
  constructor
  · intro h
    simp [calculateTotal, calculateTotalFromAddresses, currentPrintTier_eq_none_of_lt h]
  · intro h
    simp only [calculateTotal, h]
    norm_num [calculateTotalFromAddresses, currentPrintTier, nextPrintTier,
      printPricingTiers, tierMatches, List.find?, List.findIdx?, List.findIdx?_cons,
      POSTAGE_RATE, BUNDLING_RATE, PricingResult.printRateField, PricingResult.belowMinimum]

/-- Witness for C2 at concrete selections totalling 400 and 500. -/
theorem below_minimum_pricing_witness :
    calculateTotal [sampleRoute "A" "33815" 300 100] ["A"] DeliveryType.all =
      .belowMin (totalAddressesOf [sampleRoute "A" "33815" 300 100] ["A"]
        DeliveryType.all) 500 ∧
    (calculateTotal [sampleRoute "B" "33815" 400 100] ["B"]
      DeliveryType.all).printRateField = some 0.23 :=
  ⟨(below_minimum_pricing _ _ _).1 (by decide),
   ((below_minimum_pricing _ _ _).2 (by decide)).1⟩

/-- `TURNKEY_PRICING_TIERS` from roiCalculator.js (all-inclusive rates). -/
def TURNKEY_PRICING_TIERS : List Tier :=
  [⟨0, some 999, 0.65⟩,
   ⟨1000, some 2499, 0.59⟩,
   ⟨2500, some 9999, 0.52⟩,
   ⟨10000, none, 0.49⟩]

/-- `RECOMMENDED_MINIMUM` from roiCalculator.js. -/
def RECOMMENDED_MINIMUM : ℚ := 1000

/-- `getTurnkeyRatePerPiece(pieces)`: rate of `TIERS[0]` for
`pieces <= 0`, else the matching tier's rate, else the last tier's rate. -/
def getTurnkeyRatePerPiece (pieces : ℚ) : ℚ :=
  if pieces ≤ 0 then (TURNKEY_PRICING_TIERS.getD 0 default).rate
  else
    match TURNKEY_PRICING_TIERS.find? (tierMatches pieces) with
    | some t => t.rate
    | none => (TURNKEY_PRICING_TIERS.getLastD default).rate

/-- JS `findIndex` over the turnkey tiers (−1 when no tier matches). -/
def turnkeyTierIndex (pieces : ℚ) : ℤ :=
  match TURNKEY_PRICING_TIERS.findIdx? (tierMatches pieces) with
  | some i => (i : ℤ)
  | none => -1

/-- `currentTierIndex < TIERS.length - 1 ? TIERS[currentTierIndex + 1] :
null`.  When `findIndex` returned −1 this JS expression yields
`TIERS[0]`, which the model reproduces via `(-1 + 1).toNat = 0`. -/
def nextTurnkeyTier (pieces : ℚ) : Option Tier :=
  if turnkeyTierIndex pieces < (TURNKEY_PRICING_TIERS.length : ℤ) - 1 then
    some (TURNKEY_PRICING_TIERS.getD (turnkeyTierIndex pieces + 1).toNat default)
  else none

/-- The object returned by `getTurnkeyEstimate`: note it has no
`belowMinimum` field — `belowRecommended` (with `recommendedMinimum`)
is its only low-quantity signal.  The label strings are modelled by the
numeric rates they render. -/
structure TurnkeyEstimate where
  ratePerPiece : ℚ
  total : ℚ
  pieces : ℚ
  belowRecommended : Bool
  recommendedMinimum : ℚ
  nextTierRate : Option ℚ
  piecesUntilNextDiscount : ℚ
  potentialSavings : ℚ
deriving DecidableEq, Repr

/-- `getTurnkeyEstimate(pieces)` (roiCalculator.js, lines 407-446). -/
def getTurnkeyEstimate (pieces : ℚ) : TurnkeyEstimate :=
  let ratePerPiece := getTurnkeyRatePerPiece pieces
  let total := pieces * ratePerPiece
  let nextTier := nextTurnkeyTier pieces
  let piecesUntilNextDiscount : ℚ :=
    match nextTier with
    | some nt => nt.tmin - pieces
    | none => 0
  let potentialSavings : ℚ :=
    match nextTier with
    | some nt =>
        if 0 < piecesUntilNextDiscount then (ratePerPiece - nt.rate) * pieces else 0
    | none => 0
  ⟨ratePerPiece, total, pieces,
    decide (pieces < RECOMMENDED_MINIMUM) && decide (0 < pieces),
    RECOMMENDED_MINIMUM, nextTier.map Tier.rate, piecesUntilNextDiscount,
    potentialSavings⟩

/-- C10: the turnkey variant is total and has no below-minimum state: its
lowest tier starts at min 0, `getTurnkeyRatePerPiece` returns the lowest
tier's rate 0.65 for every `pieces ≤ 0` and some tier's rate for every
positive quantity, and `getTurnkeyEstimate` (whose result shape has no
`belowMinimum` field) sets `belowRecommended` exactly when
`0 < pieces < 1000`. -/
theorem turnkey_total_no_below_minimum :
    (TURNKEY_PRICING_TIERS.getD 0 default).tmin = 0 ∧
    (∀ p : ℚ, p ≤ 0 → getTurnkeyRatePerPiece p = 0.65) ∧
    (∀ p : ℚ, 0 < p →
      ∃ t ∈ TURNKEY_PRICING_TIERS, getTurnkeyRatePerPiece p = t.rate) ∧
    (∀ p : ℚ, (getTurnkeyEstimate p).belowRecommended = true ↔
      (0 < p ∧ p < 1000)) := by
  refine ⟨by norm_num [TURNKEY_PRICING_TIERS], ?_, ?_, ?_⟩
  · intro p hp
    simp [getTurnkeyRatePerPiece, if_pos hp, TURNKEY_PRICING_TIERS]
  · intro p hp
    have hp2 : ¬ p ≤ 0 := not_le.mpr hp
    rcases hfind : TURNKEY_PRICING_TIERS.find? (tierMatches p) with _ | t
    · refine ⟨⟨10000, none, 0.49⟩, by simp [TURNKEY_PRICING_TIERS], ?_⟩
      simp only [getTurnkeyRatePerPiece, if_neg hp2, hfind]
      norm_num [TURNKEY_PRICING_TIERS, List.getLastD]
    · exact ⟨t, List.mem_of_find?_eq_some hfind,
        by simp [getTurnkeyRatePerPiece, if_neg hp2, hfind]⟩
  · intro p
    simp only [getTurnkeyEstimate, RECOMMENDED_MINIMUM, Bool.and_eq_true,
      decide_eq_true_eq]
    exact and_comm

/-- Witness for C10 at `pieces = -5` and `pieces = 500`. -/
theorem turnkey_total_no_below_minimum_witness :
    getTurnkeyRatePerPiece (-5) = 0.65 ∧
    ((getTurnkeyEstimate 500).belowRecommended = true ↔
      (0 < (500 : ℚ) ∧ (500 : ℚ) < 1000)) :=
  ⟨turnkey_total_no_below_minimum.2.1 (-5) (by norm_num),
   turnkey_total_no_below_minimum.2.2.2 500⟩

/-- C8: the two pricing variants compute `potentialSavings` by two distinct
formulas: whenever a next tier exists, the print variant returns the
tier-jump total-cost delta `currentTotal - nextTier.min * (nextTier.rate +
0.25 + 0.035)`, while the turnkey variant returns the per-unit rate delta
times the current quantity, `(ratePerPiece - nextTier.rate) * pieces`. -/
theorem potential_savings_two_formulas :
    (∀ (q : ℕ) (t nt : Tier), currentPrintTier q = some t →
      nextPrintTier q = some nt →
      (calculateTotalFromAddresses q).potentialSavingsField =
        some ((q : ℚ) * (t.rate + POSTAGE_RATE + BUNDLING_RATE)
          - nt.tmin * (nt.rate + POSTAGE_RATE + BUNDLING_RATE))) ∧
    (∀ (p : ℚ) (nt : Tier), nextTurnkeyTier p = some nt → 0 < nt.tmin - p →
      (getTurnkeyEstimate p).potentialSavings =
        (getTurnkeyRatePerPiece p - nt.rate) * p) := by
  constructor
  · intro q t nt hc hn
    simp only [calculateTotalFromAddresses, hc, hn,
      PricingResult.potentialSavingsField, Option.some_inj]
    ring
  · intro p nt hn hpos
    have hpl : p < nt.tmin := by linarith
    have hnle : ¬ nt.tmin ≤ p := not_le.mpr hpl
    simp [getTurnkeyEstimate, hn, hpos, hpl, hnle]

/-- Witness for C8 at quantity 2450 in both variants. -/
theorem potential_savings_two_formulas_witness :
    (calculateTotalFromAddresses 2450).potentialSavingsField =
      some ((2450 : ℚ) * (0.17 + POSTAGE_RATE + BUNDLING_RATE)
        - 2500 * (0.12 + POSTAGE_RATE + BUNDLING_RATE)) ∧
    (getTurnkeyEstimate 2450).potentialSavings =
      (getTurnkeyRatePerPiece 2450 - 0.52) * 2450 := by
  constructor
  · exact potential_savings_two_formulas.1 2450 ⟨1000, some 2499, 0.17⟩
      ⟨2500, some 4999, 0.12⟩
      (by norm_num [currentPrintTier, printPricingTiers, tierMatches, List.find?])
      (by norm_num [nextPrintTier, printPricingTiers, tierMatches,
        List.findIdx?, List.findIdx?_cons])
  · exact potential_savings_two_formulas.2 2450 ⟨2500, some 9999, 0.52⟩
      (by
        have h2 : ((2 : ℤ)).toNat = 2 := rfl
        norm_num [nextTurnkeyTier, turnkeyTierIndex, TURNKEY_PRICING_TIERS,
          tierMatches, List.findIdx?, List.findIdx?_cons, List.getD, h2])
      (by norm_num)

/-- JS `Math.round` (round half toward +∞) on an exact rational. -/
def jsRound (x : ℚ) : ℤ := ⌊x + 1 / 2⌋

/-- `Math.round(x * 100) / 100` (round to 2 decimals). -/
def round2 (x : ℚ) : ℚ := (jsRound (x * 100) : ℚ) / 100

/-- `Math.round(x * 10) / 10` (round to 1 decimal). -/
def round1 (x : ℚ) : ℚ := (jsRound (x * 10) : ℚ) / 10

theorem jsRound_zero : jsRound 0 = 0 := by
  rw [jsRound, zero_add, Int.floor_eq_zero_iff]
  constructor <;> norm_num

theorem round2_zero : round2 0 = 0 := by
  simp [round2, jsRound_zero]

theorem round1_zero : round1 0 = 0 := by
  simp [round1, jsRound_zero]

/-- Per-scenario response/conversion rates of an industry benchmark. -/
structure ScenarioRates where
  baseline : ℚ
  typical : ℚ
  bestInClass : ℚ
deriving DecidableEq, Repr

/-- `economics` block of an industry benchmark. -/
structure Economics where
  ticket : ℚ
  repeats : ℚ
  ltv : ℚ
  margin : ℚ
deriving DecidableEq, Repr

/-- An industry benchmark as consumed by `calculateROI` (name, icon and
tips are presentation-only and omitted). -/
structure IndustryProfile where
  responseRate : ScenarioRates
  conversionRate : ScenarioRates
  economics : Economics
deriving DecidableEq, Repr

/-- One scenario object of `calculateROI`'s result (rounded fields exactly
as the source rounds them). -/
structure ROIScenario where
  responseRate : ℚ
  responses : ℤ
  conversionRate : ℚ
  customers : ℚ
  revenue : ℤ
  grossProfit : ℤ
  netProfit : ℤ
  roiMultiple : ℚ
  roiPercentage : ℤ
  cac : ℤ
  breakEvenCustomers : ℚ
  breakEvenResponseRate : ℚ
deriving DecidableEq, Repr

/-- The loop body of `calculateROI` (roiCalculator.js, lines 248-293) for
one scenario, given the scenario-independent `breakEvenCustomers`. -/
def roiScenario (totalAddresses : ℕ) (campaignCost ltv margin bec
    responseRate conversionRate : ℚ) : ROIScenario :=
  let responses : ℚ := (totalAddresses : ℚ) * responseRate
  let customers : ℚ := responses * conversionRate
  let revenue : ℚ := customers * ltv
  let grossProfit : ℚ := revenue * margin
  let netProfit : ℚ := grossProfit - campaignCost
  let roiMultiple : ℚ := if 0 < campaignCost then grossProfit / campaignCost else 0
  let roiPercentage : ℚ :=
    if 0 < campaignCost then (grossProfit - campaignCost) / campaignCost * 100 else 0
  let cac : ℚ := if 0 < customers then campaignCost / customers else 0
  let breakEvenResponseRate : ℚ :=
    if 0 < conversionRate ∧ 0 < (totalAddresses : ℚ) then
      bec / ((totalAddresses : ℚ) * conversionRate)
    else 0
  ⟨responseRate, jsRound responses, conversionRate, round1 customers,
    jsRound revenue, jsRound grossProfit, jsRound netProfit,
    round2 roiMultiple, jsRound roiPercentage, jsRound cac,
    round1 bec, (jsRound (breakEvenResponseRate * 10000) : ℚ) / 100⟩

/-- The three scenario objects returned by `calculateROI`. -/
structure ROIScenarios where
  baseline : ROIScenario
  typical : ROIScenario
  bestInClass : ROIScenario
deriving DecidableEq, Repr

/-- `calculateROI` (roiCalculator.js, lines 223-307), with no overrides
supplied (the `overrides` parameter defaults to the empty object, leaving
the benchmark's rates and economics in force); the `metadata` block is
presentation-only and omitted. -/
def calculateROI (totalAddresses : ℕ) (campaignCost : ℚ)
    (p : IndustryProfile) : ROIScenarios :=
  let grossProfitPerCustomer := p.economics.ltv * p.economics.margin
  let bec : ℚ :=
    if 0 < grossProfitPerCustomer then campaignCost / grossProfitPerCustomer else 0
  ⟨roiScenario totalAddresses campaignCost p.economics.ltv p.economics.margin bec
      p.responseRate.baseline p.conversionRate.baseline,
   roiScenario totalAddresses campaignCost p.economics.ltv p.economics.margin bec
      p.responseRate.typical p.conversionRate.typical,
   roiScenario totalAddresses campaignCost p.economics.ltv p.economics.margin bec
      p.responseRate.bestInClass p.conversionRate.bestInClass⟩

/-- The division-by-zero guards the claim requires of one scenario. -/
def roiGuardsOK (ta : ℕ) (cc rr cr ltv margin : ℚ) (s : ROIScenario) : Prop :=
  (cc = 0 → s.roiMultiple = 0 ∧ s.roiPercentage = 0) ∧
  ((ta : ℚ) * rr * cr = 0 → s.cac = 0) ∧
  (¬ 0 < ltv * margin → s.breakEvenCustomers = 0) ∧
  (cr = 0 ∨ ta = 0 → s.breakEvenResponseRate = 0)

theorem roiScenario_guards (ta : ℕ) (cc bec ltv margin rr cr : ℚ)
    (hbec : ¬ 0 < ltv * margin → bec = 0) :
    roiGuardsOK ta cc rr cr ltv margin (roiScenario ta cc ltv margin bec rr cr) := by
  refine ⟨?_, ?_, ?_, ?_⟩
  · intro h
    subst h
    simp [roiScenario, round2_zero, jsRound_zero]
  · intro h
    simp [roiScenario, h, jsRound_zero]
  · intro h
    simp [roiScenario, hbec h, round1_zero]
  · intro h
    have hng : ¬ (0 < cr ∧ 0 < (ta : ℚ)) := by
      rcases h with h | h
      · simp [h]
      · simp [h]
    have hng2 : ¬ (0 < cr ∧ 0 < ta) := by
      rcases h with h | h
      · simp [h]
      · simp [h]
    simp [roiScenario, hng, hng2, jsRound_zero]

/-- C9: for every address total, campaign cost and industry profile, the
ROI calculation guards every division: `roiMultiple` and `roiPercentage`
are 0 when `campaignCost = 0`, `cac` is 0 when the projected customer
count is 0, `breakEvenCustomers` is 0 when `ltv * margin` is not
positive, and `breakEvenResponseRate` is 0 when the conversion rate or
the address count is 0 — in each of the three scenarios. -/
theorem calculateROI_division_guards (ta : ℕ) (cc : ℚ) (p : IndustryProfile) :
    roiGuardsOK ta cc p.responseRate.baseline p.conversionRate.baseline
      p.economics.ltv p.economics.margin (calculateROI ta cc p).baseline ∧
    roiGuardsOK ta cc p.responseRate.typical p.conversionRate.typical
      p.economics.ltv p.economics.margin (calculateROI ta cc p).typical ∧
    roiGuardsOK ta cc p.responseRate.bestInClass p.conversionRate.bestInClass
      p.economics.ltv p.economics.margin (calculateROI ta cc p).bestInClass := by
  have hbec : ¬ 0 < p.economics.ltv * p.economics.margin →
      (if 0 < p.economics.ltv * p.economics.margin then
        cc / (p.economics.ltv * p.economics.margin) else 0) = 0 := by
    intro h
    simp [h]
  refine ⟨?_, ?_, ?_⟩ <;>
    simpa [calculateROI] using roiScenario_guards ta cc _ _ _ _ _ hbec

/-- Witness for C9 at `totalAddresses = 0`, `campaignCost = 0` and a
profile with zero economics. -/
theorem calculateROI_division_guards_witness :
    ((calculateROI 0 0 ⟨⟨0, 0, 0⟩, ⟨0, 0, 0⟩, ⟨0, 0, 0, 0⟩⟩).baseline.roiMultiple = 0 ∧
      (calculateROI 0 0 ⟨⟨0, 0, 0⟩, ⟨0, 0, 0⟩, ⟨0, 0, 0, 0⟩⟩).baseline.roiPercentage = 0) ∧
    (calculateROI 0 0 ⟨⟨0, 0, 0⟩, ⟨0, 0, 0⟩, ⟨0, 0, 0, 0⟩⟩).baseline.cac = 0 ∧
    (calculateROI 0 0 ⟨⟨0, 0, 0⟩, ⟨0, 0, 0⟩, ⟨0, 0, 0, 0⟩⟩).baseline.breakEvenCustomers = 0 ∧
    (calculateROI 0 0 ⟨⟨0, 0, 0⟩, ⟨0, 0, 0⟩, ⟨0, 0, 0, 0⟩⟩).baseline.breakEvenResponseRate = 0 := by
  obtain ⟨h1, h2, h3, h4⟩ :=
    (calculateROI_division_guards 0 0 ⟨⟨0, 0, 0⟩, ⟨0, 0, 0⟩, ⟨0, 0, 0, 0⟩⟩).1
  exact ⟨h1 rfl, h2 (by norm_num), h3 (by norm_num), h4 (Or.inl rfl)⟩

/-- One iteration of the ray-casting loop, for the edge
`(polygon[i], polygon[j])` with `j` the cyclic predecessor of `i`:
`((yi > y) !== (yj > y)) && (x < (xj - xi) * (y - yi) / (yj - yi) + xi)`
toggles `inside`.  (When the first conjunct holds, `yj - yi ≠ 0`, so the
division is never by zero on the toggling branch.) -/
def pipStep (x y : ℚ) (inside : Bool) (e : Point × Point) : Bool :=
  let xi := e.1.lat
  let yi := e.1.lng
  let xj := e.2.lat
  let yj := e.2.lng
  if (decide (y < yi) != decide (y < yj))
      && decide (x < (xj - xi) * (y - yi) / (yj - yi) + xi)
  then !inside else inside

/-- The `(polygon[i], polygon[j])` index pairs visited by
`for (let i = 0, j = polygon.length - 1; i < polygon.length; j = i++)`. -/
def edgePairs (l : List Point) : List (Point × Point) :=
  match l.getLast? with
  | none => []
  | some lastPoint => l.zip (lastPoint :: l.dropLast)

/-- `isPointInPolygonSimple` (part_005, lines 162-182): ray casting,
`false` whenever the polygon has fewer than 3 vertices (or is absent). -/
def isPointInPolygonSimple (point : Point) (polygon : List Point) : Bool :=
  if polygon.length < 3 then false
  else (edgePairs polygon).foldl (pipStep point.lat point.lng) false

/-- `isPointInPolygon` (part_005, lines 930-949) is a verbatim copy of
`isPointInPolygonSimple` inside the component. -/
def isPointInPolygon (point : Point) (polygon : List Point) : Bool :=
  isPointInPolygonSimple point polygon

/-- `routeIntersectsPolygon` (part_005, lines 952-967).  A missing or
degenerate polygon (fewer than 3 vertices) yields `true` — the source
comments this branch "No polygon drawn, show all". -/
def routeIntersectsPolygon (route : Route) (polygonPath : List Point) : Bool :=
  if polygonPath.length < 3 then true
  else if isPointInPolygon ⟨route.centerLat, route.centerLng⟩ polygonPath then true
  else route.coordinates.any (fun path =>
    path.any (fun pt => isPointInPolygon pt polygonPath))

/-- C5 (counterexample): on a 0-vertex polygon path the route-polygon
intersection predicate returns `true`, not `false` as claimed. -/
theorem routeIntersectsPolygon_degenerate_claim_false :
    ([] : List Point).length < 3 ∧
    routeIntersectsPolygon (sampleRoute "A" "33815" 10 5) [] = true := by
  exact ⟨by decide, rfl⟩

/-- C5 (amended): for every route and every polygon path with fewer than 3
vertices, `routeIntersectsPolygon` returns `true` (degenerate polygons are
treated as "no polygon drawn — show all"; the predicate is total, so it
never throws), while the underlying point-in-polygon test returns `false`
on such paths. -/
theorem routeIntersectsPolygon_degenerate (route : Route) (path : List Point)
    (h : path.length < 3) :
    routeIntersectsPolygon route path = true ∧
    ∀ pt : Point, isPointInPolygonSimple pt path = false := by
  constructor
  · simp [routeIntersectsPolygon, h]
  · intro pt
    simp [isPointInPolygonSimple, h]

/-- Witness for C5 (amended) on a 2-vertex path. -/
theorem routeIntersectsPolygon_degenerate_witness :
    routeIntersectsPolygon (sampleRoute "B" "33803" 7 3) [⟨0, 0⟩, ⟨0, 10⟩] = true ∧
    isPointInPolygonSimple ⟨5, 5⟩ [⟨0, 0⟩, ⟨0, 10⟩] = false := by
  obtain ⟨h1, h2⟩ :=
    routeIntersectsPolygon_degenerate (sampleRoute "B" "33803" 7 3)
      [⟨0, 0⟩, ⟨0, 10⟩] (by decide)
  exact ⟨h1, h2 ⟨5, 5⟩⟩

/-- The delivery-type step of `filteredRoutes`: `residential` keeps routes
with `residential > 0`, `business` keeps `business > 0`, `all` keeps
everything. -/
def deliveryFilter (routes : List Route) (dt : DeliveryType) : List Route :=
  match dt with
  | .residential => routes.filter (fun r => decide (0 < r.residential))
  | .business => routes.filter (fun r => decide (0 < r.business))
  | .all => routes

/-- `filteredRoutes` (part_005, lines 751-779): delivery-type filter, then
the radius filter (only when a circle is active **and no polygon is
drawn**), then the polygon filter (only when the drawn polygon has at
least 3 vertices).  `routesInRadius` is the separately memoised list the
circle branch consults. -/
def filteredRoutes (routes : List Route) (dt : DeliveryType)
    (circleCenter : Option Point) (routesInRadius : List Route)
    (drawnPolygonPath : Option (List Point)) : List Route :=
  let f1 := deliveryFilter routes dt
  let f2 :=
    if circleCenter.isSome && drawnPolygonPath.isNone then
      f1.filter (fun r => (routesInRadius.map Route.id).contains r.id)
    else f1
  match drawnPolygonPath with
  | some path =>
      if 3 ≤ path.length then
        f2.filter (fun r => isPointInPolygonSimple ⟨r.centerLat, r.centerLng⟩ path)
      else f2
  | none => f2

/-- C7: when both a circle region and a drawn polygon of at least 3
vertices are active, the in-scope set equals the delivery-type filter
followed by the polygon filter alone; the circle/radius filter
contributes nothing (the result coincides with the no-circle run). -/
theorem polygon_precedence (routes : List Route) (dt : DeliveryType)
    (c : Point) (routesInRadius : List Route) (path : List Point)
    (h : 3 ≤ path.length) :
    filteredRoutes routes dt (some c) routesInRadius (some path) =
      (deliveryFilter routes dt).filter
        (fun r => isPointInPolygonSimple ⟨r.centerLat, r.centerLng⟩ path) ∧
    filteredRoutes routes dt (some c) routesInRadius (some path) =
      filteredRoutes routes dt none [] (some path) := by
  constructor <;> simp [filteredRoutes, h]

/-- Witness for C7 on a concrete catalog, circle and square polygon. -/
theorem polygon_precedence_witness :
    filteredRoutes [sampleRoute "A" "33815" 3 2] DeliveryType.all
        (some ⟨28, -81⟩) [] (some [⟨0, 0⟩, ⟨0, 10⟩, ⟨10, 10⟩, ⟨10, 0⟩]) =
      (deliveryFilter [sampleRoute "A" "33815" 3 2] DeliveryType.all).filter
        (fun r => isPointInPolygonSimple ⟨r.centerLat, r.centerLng⟩
          [⟨0, 0⟩, ⟨0, 10⟩, ⟨10, 10⟩, ⟨10, 0⟩]) :=
  (polygon_precedence [sampleRoute "A" "33815" 3 2] DeliveryType.all
    ⟨28, -81⟩ [] [⟨0, 0⟩, ⟨0, 10⟩, ⟨10, 10⟩, ⟨10, 0⟩] (by decide)).1

/-- The catalog update inside `fetchEDDMRoutes` (part_005 lines 326-331,
and identically EDDMMapper.js lines 248-253):
`setRoutes(prev => [...prev.filter(r => r.zipCode !== zip), ...newRoutes])`. -/
def mergeRoutes (zip : String) (newRoutes : List Route) (prev : List Route) :
    List Route :=
  prev.filter (fun r => r.zipCode != zip) ++ newRoutes

/-- C6: merging fetched routes for a ZIP removes exactly that ZIP's prior
entries and appends the new batch, leaving every other ZIP's entries
untouched; concretely, merging "33803" with [D], then "33815" with [A,B],
then re-merging "33815" with [C], leaves the catalog holding exactly C
for 33815 and still D for 33803. -/
theorem merge_replace_on_refetch (prev newRoutes : List Route) (zip z2 : String)
    (hnew : ∀ r ∈ newRoutes, r.zipCode = zip) (hz : z2 ≠ zip) :
    (mergeRoutes zip newRoutes prev).filter (fun r => r.zipCode == z2) =
      prev.filter (fun r => r.zipCode == z2) ∧
    mergeRoutes "33815" [sampleRoute "C" "33815" 3 0]
      (mergeRoutes "33815"
        [sampleRoute "A" "33815" 1 0, sampleRoute "B" "33815" 2 0]
        (mergeRoutes "33803" [sampleRoute "D" "33803" 4 0] [])) =
      [sampleRoute "D" "33803" 4 0, sampleRoute "C" "33815" 3 0] := by
  constructor
  · rw [mergeRoutes, List.filter_append]
    have hnil : newRoutes.filter (fun r => r.zipCode == z2) = [] := by
      rw [List.filter_eq_nil_iff]
      intro r hr
      simp [hnew r hr, Ne.symm hz]
    rw [hnil, List.append_nil, List.filter_filter]
    apply List.filter_congr
    intro r hr
    by_cases h : r.zipCode = z2
    · simp [h, hz]
    · simp [h]
  · decide

/-- Witness for C6 on a concrete two-ZIP catalog. -/
theorem merge_replace_on_refetch_witness :
    (mergeRoutes "33815" [sampleRoute "C" "33815" 3 0]
      [sampleRoute "D" "33803" 4 0, sampleRoute "A" "33815" 1 0]).filter
        (fun r => r.zipCode == "33803") =
      [sampleRoute "D" "33803" 4 0, sampleRoute "A" "33815" 1 0].filter
        (fun r => r.zipCode == "33803") :=
  (merge_replace_on_refetch
    [sampleRoute "D" "33803" 4 0, sampleRoute "A" "33815" 1 0]
    [sampleRoute "C" "33815" 3 0] "33815" "33803"
    (by decide) (by decide)).1

/-- `calculateCostForAddresses` inside `optimizeForBudget`: below 500 the
lowest tier's rate 0.23 is charged (unlike `calculateTotal`, which goes
below-minimum); otherwise the matching tier's rate, with fallback
0.089. -/
def calculateCostForAddresses (addresses : ℕ) : ℚ :=
  if addresses < 500 then (addresses : ℚ) * (0.23 + POSTAGE_RATE + BUNDLING_RATE)
  else
    let printRate : ℚ :=
      match printPricingTiers.find? (tierMatches (addresses : ℚ)) with
      | some t => t.rate
      | none => 0.089
    (addresses : ℚ) * (printRate + POSTAGE_RATE + BUNDLING_RATE)

/-- The fields of a `routesWithValue` entry that the optimizer reads (the
spread copies of the route's other fields are unused downstream). -/
structure RouteValue where
  rid : String
  addresses : ℕ
  estimatedCost : ℚ
  valuePerDollar : ℚ
deriving DecidableEq, Repr

/-- The `routesWithValue` mapping step: per-type address count, standalone
cost estimate, and value density `addresses / estimatedCost`.  (In JS a
zero-address route has density `0/0 = NaN` and its position under the
comparator sort is engine-dependent; the model's `0/0 = 0` places such
routes last.  No proved property depends on the sort order.) -/
def mkRouteValue (dt : DeliveryType) (r : Route) : RouteValue :=
  let addresses := getRouteAddresses dt r
  let estimatedCost := calculateCostForAddresses addresses
  ⟨r.id, addresses, estimatedCost, (addresses : ℚ) / estimatedCost⟩

/-- Stable descending insertion by `valuePerDollar`, modelling the stable
JS `sort((a, b) => b.valuePerDollar - a.valuePerDollar)`. -/
def insertByValue (x : RouteValue) : List RouteValue → List RouteValue
  | [] => [x]
  | y :: ys =>
      if y.valuePerDollar < x.valuePerDollar then x :: y :: ys
      else y :: insertByValue x ys

/-- Stable insertion sort (descending by `valuePerDollar`). -/
def sortByValueDesc : List RouteValue → List RouteValue
  | [] => []
  | x :: xs => insertByValue x (sortByValueDesc xs)

theorem length_insertByValue (x : RouteValue) (l : List RouteValue) :
    (insertByValue x l).length = l.length + 1 := by
  induction l with
  | nil => rfl
  | cons y ys ih =>
      rw [insertByValue]
      split
      · simp
      · simp [ih]

theorem length_sortByValueDesc (l : List RouteValue) :
    (sortByValueDesc l).length = l.length := by
  induction l with
  | nil => rfl
  | cons x xs ih => rw [sortByValueDesc, length_insertByValue, ih, List.length_cons]

/-- One iteration of the greedy loop: accept a route when the tiered cost
of the new cumulative total stays within budget; otherwise skip it and
keep trying later (lower-density) routes.  The accumulator is
`(selectedIds, totalAddresses, runningCost)`. -/
def greedyStep (budget : ℚ) (acc : List String × ℕ × ℚ) (r : RouteValue) :
    List String × ℕ × ℚ :=
  let newTotal := acc.2.1 + r.addresses
  let newCost := calculateCostForAddresses newTotal
  if newCost ≤ budget then (acc.1 ++ [r.rid], newTotal, newCost) else acc

/-- The selection state `optimizeForBudget` commits via
`setSelectedRoutes`, together with the loop's final cumulative total and
running cost (the values its closing `console.log` reports). -/
structure OptimizeResult where
  selectedIds : List String
  totalAddresses : ℕ
  runningCost : ℚ
deriving DecidableEq, Repr

/-- The fallback `if (selectedIds.length === 0 && routesWithValue.length
> 0) selectedIds.push(routesWithValue[0].id)`: force-include the single
best-value route when it exists. -/
def fallbackIds (rv : List RouteValue) (ids : List String) : List String :=
  match rv with
  | [] => ids
  | r :: _ => [r.rid]

/-- The main path of `optimizeForBudget`: value-density sort, greedy
accumulation, and the single best-value-route fallback when the greedy
loop accepted nothing. -/
def optimizeCore (routes : List Route) (dt : DeliveryType) (budget : ℚ) :
    OptimizeResult :=
  let routesWithValue := sortByValueDesc (routes.map (mkRouteValue dt))
  let acc := routesWithValue.foldl (greedyStep budget) ([], 0, 0)
  let selectedIds :=
    if acc.1.isEmpty then fallbackIds routesWithValue acc.1 else acc.1
  ⟨selectedIds, acc.2.1, acc.2.2⟩

/-- `optimizeForBudget` (part_005, lines 838-907).  The early return —
no in-scope routes, or `budget < 100` — is modelled as `none` (the JS
function returns without selecting anything); otherwise the greedy
selection is committed via `setSelectedRoutes`. -/
def optimizeForBudget (routes : List Route) (dt : DeliveryType) (budget : ℚ) :
    Option OptimizeResult :=
  if routes.isEmpty || decide (budget < 100) then none
  else some (optimizeCore routes dt budget)

/-- Invariant of the greedy fold: either nothing was accepted yet (and the
running cost is still 0), or the running cost is within budget. -/
theorem greedy_invariant (budget : ℚ) (l : List RouteValue) :
    ∀ acc : List String × ℕ × ℚ,
      (acc.1 = [] ∧ acc.2.2 = 0) ∨ acc.2.2 ≤ budget →
      ((l.foldl (greedyStep budget) acc).1 = [] ∧
        (l.foldl (greedyStep budget) acc).2.2 = 0) ∨
      (l.foldl (greedyStep budget) acc).2.2 ≤ budget := by
  induction l with
  | nil => intro acc h; exact h
  | cons r rs ih =>
      intro acc h
      rw [List.foldl_cons]
      apply ih
      rw [greedyStep]
      split
      · right
        assumption
      · exact h

/-- C3: whenever the budget optimizer commits a selection, either its
running tiered cost (computed on the cumulative address total of the
chosen routes) is within the budget, or the selection is the single-route
forced-inclusion fallback. -/
theorem optimizer_within_budget_or_singleton (routes : List Route)
    (dt : DeliveryType) (budget : ℚ) (res : OptimizeResult)
    (h : optimizeForBudget routes dt budget = some res) :
    res.runningCost ≤ budget ∨ res.selectedIds.length = 1 := by
  rw [optimizeForBudget] at h
  by_cases hg : (routes.isEmpty || decide (budget < 100)) = true
  · rw [if_pos hg] at h
    exact absurd h (by simp)
  · rw [if_neg hg] at h
    have hres : res = optimizeCore routes dt budget := (Option.some_inj.mp h).symm
    subst hres
    have hbud : ¬ budget < 100 := by
      intro hb
      exact hg (by simp [hb])
    have hbud2 : (0 : ℚ) ≤ budget := by linarith [not_lt.mp hbud]
    set rv := sortByValueDesc (routes.map (mkRouteValue dt)) with hrv
    set acc := rv.foldl (greedyStep budget) ([], 0, 0) with hacc
    have hinv := greedy_invariant budget rv ([], 0, 0) (Or.inl ⟨rfl, rfl⟩)
    rw [← hacc] at hinv
    have hrun : (optimizeCore routes dt budget).runningCost = acc.2.2 := rfl
    have hsel : (optimizeCore routes dt budget).selectedIds =
        (if acc.1.isEmpty then fallbackIds rv acc.1 else acc.1) := rfl
    rcases hinv with ⟨hids, hcost⟩ | hle
    · -- nothing accepted: fallback (or the vacuous empty-catalog branch)
      cases hrvc : rv with
      | nil =>
          left
          rw [hrun, hacc, hrvc]
          simpa using hbud2
      | cons r tl =>
          right
          rw [hsel, if_pos (by simp [hids]), hrvc, fallbackIds]
          simp
    · left
      rw [hrun]
      exact hle

/-- Witness for C3 on a concrete one-route catalog within budget. -/
theorem optimizer_within_budget_or_singleton_witness :
    optimizeForBudget [sampleRoute "A" "33815" 600 0] DeliveryType.all 1000 =
      some ⟨["A"], 600, 309⟩ ∧
    ((309 : ℚ) ≤ 1000 ∨ (["A"] : List String).length = 1) := by
  have h : optimizeForBudget [sampleRoute "A" "33815" 600 0]
      DeliveryType.all 1000 = some ⟨["A"], 600, 309⟩ := by
    norm_num [optimizeForBudget, optimizeCore, sortByValueDesc, insertByValue,
      mkRouteValue, getRouteAddresses, calculateCostForAddresses, greedyStep,
      fallbackIds, tierMatches, printPricingTiers, List.find?, POSTAGE_RATE,
      BUNDLING_RATE, sampleRoute, List.isEmpty]
  refine ⟨h, ?_⟩
  exact optimizer_within_budget_or_singleton
    [sampleRoute "A" "33815" 600 0] DeliveryType.all 1000 ⟨["A"], 600, 309⟩ h

/-- C4 (counterexample): with one in-scope route and a positive budget of
50 the optimizer selects nothing — it returns early because of its
`budget < 100` guard. -/
theorem optimizer_positive_budget_claim_false :
    (0 : ℚ) < 50 ∧
    optimizeForBudget [sampleRoute "A" "33815" 300 100] DeliveryType.all 50 =
      none := by
  constructor
  · norm_num
  · rw [optimizeForBudget, if_pos]
    rw [Bool.or_eq_true]
    right
    rw [decide_eq_true_eq]
    norm_num

/-- C4 (amended): whenever at least one in-scope route exists and the
budget is at least 100 (the optimizer's minimum-budget guard; a positive
budget below 100 makes it bail out without selecting), the optimizer
commits a non-empty selection — if no route fits the budget it still
selects a single forced route. -/
theorem optimizer_nonempty_selection (routes : List Route) (dt : DeliveryType)
    (budget : ℚ) (h1 : routes ≠ []) (h2 : 100 ≤ budget) :
    ∃ res, optimizeForBudget routes dt budget = some res ∧
      res.selectedIds ≠ [] := by
  have hg : (routes.isEmpty || decide (budget < 100)) = false := by
    rw [Bool.or_eq_false_iff]
    constructor
    · simpa [List.isEmpty_iff] using h1
    · rw [decide_eq_false_iff_not]
      linarith
  refine ⟨optimizeCore routes dt budget, ?_, ?_⟩
  · rw [optimizeForBudget, if_neg (by simp [hg])]
  · set rv := sortByValueDesc (routes.map (mkRouteValue dt)) with hrv
    have hrvne : rv ≠ [] := by
      intro hnil
      have := length_sortByValueDesc (routes.map (mkRouteValue dt))
      rw [← hrv, hnil] at this
      simp only [List.length_nil] at this
      exact h1 (List.eq_nil_of_length_eq_zero
        (by simpa [List.length_map] using this.symm))
    set acc := rv.foldl (greedyStep budget) ([], 0, 0) with hacc
    have hsel : (optimizeCore routes dt budget).selectedIds =
        (if acc.1.isEmpty then fallbackIds rv acc.1 else acc.1) := rfl
    rw [hsel]
    by_cases hids : acc.1.isEmpty
    · rw [if_pos hids]
      cases hrvc : rv with
      | nil => exact absurd hrvc hrvne
      | cons r tl => simp [fallbackIds]
    · rw [if_neg hids]
      simpa [List.isEmpty_iff] using hids

/-- Witness for C4 (amended) at a concrete route and budget 100 (too small
for the route, so the forced-inclusion fallback fires). -/
theorem optimizer_nonempty_selection_witness :
    optimizeForBudget [sampleRoute "A" "33815" 5000 0] DeliveryType.all 100 =
      some ⟨["A"], 0, 0⟩ ∧ (["A"] : List String) ≠ [] := by
  have h : optimizeForBudget [sampleRoute "A" "33815" 5000 0]
      DeliveryType.all 100 = some ⟨["A"], 0, 0⟩ := by
    norm_num [optimizeForBudget, optimizeCore, sortByValueDesc, insertByValue,
      mkRouteValue, getRouteAddresses, calculateCostForAddresses, greedyStep,
      fallbackIds, tierMatches, printPricingTiers, List.find?, POSTAGE_RATE,
      BUNDLING_RATE, sampleRoute, List.isEmpty]
  obtain ⟨res, heq, hne⟩ := optimizer_nonempty_selection
    [sampleRoute "A" "33815" 5000 0] DeliveryType.all 100 (by decide) (by norm_num)
  have hres : res = ⟨["A"], 0, 0⟩ := by
    rw [heq] at h
    exact Option.some_inj.mp h
  rw [hres] at hne
  exact ⟨h, hne⟩

end EDDM
